import Mathlib

/-!
Shallow embedding of the event-management CRUD backend (src/main.py):
the identifier codec (`parse_object_id`), the input sanitizer
(`clean_input`), the allowlist filter (`safe_update_fields`), the
identifier stringification (`string_ids`), and the update / delete /
media-download handlers, modelled as pure functions over an explicit
store state.  HTTP exceptions become an error type carried by `Except`;
BSON documents become an inductive `Value` type with association-list
dictionaries (Python dicts preserve insertion order, so an association
list is a faithful image of the dict the handlers build).
-/

set_option autoImplicit false

namespace DbHome

/-- Model of `fastapi.HTTPException(status_code=..., detail=...)`. -/
structure HTTPException where
  status_code : Nat
  detail : String
  deriving DecidableEq, Repr

/-- Model of `bson.ObjectId`: the internal binary identifier, a sequence
of bytes (a store-generated identifier has twelve of them). -/
structure ObjectId where
  bytes : List Nat
  deriving DecidableEq, Repr

/-- A store-generated identifier: exactly 12 bytes, each below 256. -/
def ObjectId.wf (x : ObjectId) : Prop :=
  x.bytes.length = 12 ∧ ∀ b ∈ x.bytes, b < 256

/-- BSON-like values that the handlers put into documents: strings,
integers, internal identifiers, null (Python `None`), binary content,
timestamps, arrays and nested documents. -/
inductive Value where
  | vStr : String → Value
  | vInt : Int → Value
  | vOid : ObjectId → Value
  | vNull : Value
  | vBytes : List Nat → Value
  | vTime : Nat → Value
  | vList : List Value → Value
  | vDoc : List (String × Value) → Value

/-- Whether a value is a Python `dict` (`isinstance(v, dict)`). -/
def isDictVal : Value → Bool
  | Value.vDoc _ => true
  | _ => false

/-- Python `'$' in v` on a string value. -/
def strHasDollar (s : String) : Bool :=
  s.data.any (fun c => c == '$')

/-- Whether a value is a string containing the reserved marker
(`isinstance(v, str) and ('$' in v)`). -/
def hasDollarVal : Value → Bool
  | Value.vStr s => strHasDollar s
  | _ => false

/-! ## Identifier codec (`parse_object_id`, `str(ObjectId)`) -/

/-- One byte rendered as two lowercase hex digits, as Python's
`bytes.hex()` does inside `str(ObjectId)`. -/
def byteToHex (b : Nat) : List Char :=
  [Nat.digitChar (b / 16), Nat.digitChar (b % 16)]

/-- Hex rendering of a byte sequence. -/
def bytesToHex : List Nat → List Char
  | [] => []
  | b :: bs => byteToHex b ++ bytesToHex bs

/-- Encoding `str(ObjectId)`: the 24-character lowercase hex form. -/
def oid_to_string (x : ObjectId) : String :=
  ⟨bytesToHex x.bytes⟩

/-- Is this character a hexadecimal digit? -/
def isHexChar (c : Char) : Bool :=
  ('0' ≤ c && c ≤ '9') || ('a' ≤ c && c ≤ 'f') || ('A' ≤ c && c ≤ 'F')

/-- Numeric value of a hexadecimal digit. -/
def hexVal (c : Char) : Nat :=
  if '0' ≤ c ∧ c ≤ '9' then c.toNat - '0'.toNat
  else if 'a' ≤ c ∧ c ≤ 'f' then c.toNat - 'a'.toNat + 10
  else if 'A' ≤ c ∧ c ≤ 'F' then c.toNat - 'A'.toNat + 10
  else 0

/-- Parse consecutive pairs of hex digits into bytes (`bytes.fromhex`);
total here because callers guard with `ObjectId_is_valid` first. -/
def hexPairsToBytes : List Char → List Nat
  | c1 :: c2 :: rest => (16 * hexVal c1 + hexVal c2) :: hexPairsToBytes rest
  | _ => []

/-- Validity check `ObjectId.is_valid` on a string: a 24-character
hexadecimal string. -/
def ObjectId_is_valid (s : String) : Bool :=
  s.data.length == 24 && s.data.all isHexChar

/-- Helper `parse_object_id` (src/main.py lines 15-23): convert a string to an
ObjectId if valid, else raise HTTP 400 with detail `Invalid ID: {id}`. -/
def parse_object_id (s : String) : Except HTTPException ObjectId :=
  if ObjectId_is_valid s then Except.ok ⟨hexPairsToBytes s.data⟩
  else Except.error ⟨400, "Invalid ID: " ++ s⟩

/-! ## Input sanitizer (`clean_input`, src/main.py lines 62-70) -/

/-- Sanitizer `clean_input`: iterate over the top-level items of the mapping; raise
400 on a nested dictionary value, raise 400 on a string value containing
the reserved marker character; otherwise return nothing. -/
def clean_input : List (String × Value) → Except HTTPException Unit
  | [] => Except.ok ()
  | (_, v) :: rest =>
    match v with
    | Value.vDoc _ =>
        Except.error ⟨400, "Nested dictionaries are not allowed"⟩
    | Value.vStr s =>
        if strHasDollar s then
          Except.error ⟨400, "Invalid characters in input"⟩
        else clean_input rest
    | _ => clean_input rest

/-! ## Allowlist filter (`safe_update_fields`, src/main.py lines 73-78) -/

/-- Filter `safe_update_fields`: keep only the allowed fields, run the
sanitizer on the filtered mapping, then return it. -/
def safe_update_fields (data : List (String × Value))
    (allowed_fields : List String) :
    Except HTTPException (List (String × Value)) :=
  let filtered := data.filter (fun kv => allowed_fields.contains kv.1)
  match clean_input filtered with
  | Except.ok _ => Except.ok filtered
  | Except.error e => Except.error e

/-! ## Identifier stringification (`string_ids`, src/main.py lines 26-42) -/

mutual

/-- Conversion `string_ids`: on a list, recurse into every element; on a dict,
rewrite each value (ObjectId becomes its string form, nested dict or
list recurses, everything else passes through); any other value is
returned unchanged. -/
def string_ids : Value → Value
  | Value.vList l => Value.vList (string_ids_list l)
  | Value.vDoc kvs => Value.vDoc (string_ids_doc kvs)
  | v => v

/-- The list branch of `string_ids`: `[string_ids(d) for d in doc]`. -/
def string_ids_list : List Value → List Value
  | [] => []
  | d :: rest => string_ids d :: string_ids_list rest

/-- The dict branch of `string_ids`: per-value rewriting. -/
def string_ids_doc : List (String × Value) → List (String × Value)
  | [] => []
  | (k, v) :: rest =>
    (match v with
     | Value.vOid oid => (k, Value.vStr (oid_to_string oid))
     | Value.vDoc kvs => (k, Value.vDoc (string_ids_doc kvs))
     | Value.vList l => (k, Value.vList (string_ids_list l))
     | v => (k, v)) :: string_ids_doc rest

end

mutual

/-- Number of internal-identifier-typed values inside a value, at any
nesting depth (used to observe what `string_ids` converts). -/
def countOids : Value → Nat
  | Value.vOid _ => 1
  | Value.vList l => countOidsList l
  | Value.vDoc kvs => countOidsDoc kvs
  | _ => 0

/-- Count of identifiers over list elements. -/
def countOidsList : List Value → Nat
  | [] => 0
  | d :: rest => countOids d + countOidsList rest

/-- Count of identifiers over dict entries. -/
def countOidsDoc : List (String × Value) → Nat
  | [] => 0
  | (_, v) :: rest => countOids v + countOidsDoc rest

end

/-! ## Request models and allowlists (src/main.py lines 81-108) -/

/-- The `Event` pydantic model. -/
structure Event where
  name : String
  description : String
  date : String
  venue_id : String
  max_attendees : Int

/-- Mapping `event.dict()`: what the update handler passes on. -/
def event_dict (e : Event) : List (String × Value) :=
  [("name", Value.vStr e.name),
   ("description", Value.vStr e.description),
   ("date", Value.vStr e.date),
   ("venue_id", Value.vStr e.venue_id),
   ("max_attendees", Value.vInt e.max_attendees)]

/-- The `Attendee` pydantic model (`phone` optional). -/
structure Attendee where
  name : String
  email : String
  phone : Option String

/-- Mapping `attendee.dict()`: `None` becomes a null value. -/
def attendee_dict (a : Attendee) : List (String × Value) :=
  [("name", Value.vStr a.name),
   ("email", Value.vStr a.email),
   ("phone", match a.phone with
             | some p => Value.vStr p
             | none => Value.vNull)]

/-- The `Venue` pydantic model. -/
structure Venue where
  name : String
  address : String
  capacity : Int

/-- Mapping `venue.dict()`. -/
def venue_dict (v : Venue) : List (String × Value) :=
  [("name", Value.vStr v.name),
   ("address", Value.vStr v.address),
   ("capacity", Value.vInt v.capacity)]

/-- The `Booking` pydantic model. -/
structure Booking where
  event_id : String
  attendee_id : String
  ticket_type : String
  quantity : Int

/-- Mapping `booking.dict()`. -/
def booking_dict (b : Booking) : List (String × Value) :=
  [("event_id", Value.vStr b.event_id),
   ("attendee_id", Value.vStr b.attendee_id),
   ("ticket_type", Value.vStr b.ticket_type),
   ("quantity", Value.vInt b.quantity)]

/-- Allowlist `EVENT_ALLOWED` (a Python set; membership is what matters). -/
def EVENT_ALLOWED : List String :=
  ["name", "description", "date", "venue_id", "max_attendees"]

/-- Allowlist `ATTENDEE_ALLOWED`. -/
def ATTENDEE_ALLOWED : List String :=
  ["name", "email", "phone"]

/-- Allowlist `VENUE_ALLOWED`. -/
def VENUE_ALLOWED : List String :=
  ["name", "address", "capacity"]

/-- Allowlist `BOOKING_ALLOWED`. -/
def BOOKING_ALLOWED : List String :=
  ["event_id", "attendee_id", "ticket_type", "quantity"]

/-! ## Store model: `update_one`, `delete_one`, `find_one` -/

/-- A stored document: its store-assigned `_id` paired with its fields. -/
def StoredDoc := ObjectId × List (String × Value)

/-- Mongo `$set` of one field: replace the first binding of the key,
append if absent. -/
def setField : List (String × Value) → String → Value →
    List (String × Value)
  | [], k, v => [(k, v)]
  | (k1, v1) :: rest, k, v =>
    if k1 = k then (k, v) :: rest else (k1, v1) :: setField rest k v

/-- Mongo `$set` of a whole mapping, field by field. -/
def applySet (fields : List (String × Value)) :
    List (String × Value) → List (String × Value)
  | [] => fields
  | (k, v) :: rest => applySet (setField fields k v) rest

/-- Store call `update_one` with filter `_id = oid` and a `$set` of `upd`:
update the first document
whose id matches; return the matched count and the new store. -/
def update_one : List StoredDoc → ObjectId → List (String × Value) →
    Nat × List StoredDoc
  | [], _, _ => (0, [])
  | (i, fs) :: rest, oid, upd =>
    if i = oid then (1, (i, applySet fs upd) :: rest)
    else
      let r := update_one rest oid upd
      (r.1, (i, fs) :: r.2)

/-- Store call `delete_one` with filter `_id = oid`: remove the first
document whose id
matches; return the deleted count and the new store. -/
def delete_one : List StoredDoc → ObjectId → Nat × List StoredDoc
  | [], _ => (0, [])
  | (i, fs) :: rest, oid =>
    if i = oid then (1, rest)
    else
      let r := delete_one rest oid
      (r.1, (i, fs) :: r.2)

/-! ## Event update / delete handlers (src/main.py lines 127-148) -/

/-- Handler `update_event` (`PUT /events/...`): parse the id, run the
allowlist filter (which runs the sanitizer), issue the partial update,
404 when nothing matched.  Returns the HTTP outcome and the store after
the request. -/
def update_event (event_id : String) (event : Event)
    (store : List StoredDoc) :
    Except HTTPException String × List StoredDoc :=
  match parse_object_id event_id with
  | Except.error e => (Except.error e, store)
  | Except.ok obj_id =>
    match safe_update_fields (event_dict event) EVENT_ALLOWED with
    | Except.error e => (Except.error e, store)
    | Except.ok safe_data =>
      let r := update_one store obj_id safe_data
      if r.1 = 0 then (Except.error ⟨404, "Event not found"⟩, r.2)
      else (Except.ok "Event updated", r.2)

/-- Handler `delete_event` (`DELETE /events/...`): parse the id, issue
the delete, 404 when nothing was deleted. -/
def delete_event (event_id : String) (store : List StoredDoc) :
    Except HTTPException String × List StoredDoc :=
  match parse_object_id event_id with
  | Except.error e => (Except.error e, store)
  | Except.ok obj_id =>
    let r := delete_one store obj_id
    if r.1 = 0 then (Except.error ⟨404, "Event not found"⟩, r.2)
    else (Except.ok "Event deleted", r.2)

/-! ## Media download handlers (src/main.py lines 170-182, 209-221) -/

/-- A document of the `multimedia_files` collection, as the upload
handlers build it. -/
structure MediaDoc where
  event_id : String
  filename : String
  content_type : String
  content : List Nat
  media_type : String
  uploaded_at : Nat
  deriving DecidableEq

/-- Store call `find_one` with filter on `_id` and `media_type`: the
first stored record
matching both the identifier and the media category. -/
def find_one_media : List (ObjectId × MediaDoc) → ObjectId → String →
    Option (ObjectId × MediaDoc)
  | [], _, _ => none
  | r :: rest, oid, mt =>
    if r.1 = oid ∧ r.2.media_type = mt then some r
    else find_one_media rest oid mt

/-- Model of the `StreamingResponse` the download handlers build: the
binary body, the response content-type, and the Content-Disposition
header value. -/
structure StreamingResponse where
  body : List Nat
  media_type : String
  content_disposition : String
  deriving DecidableEq

/-- Handler `download_event_poster`: parse the id, look up by
id and category `event_poster`, 404 if absent, else stream the stored
payload with its content-type and an attachment filename header. -/
def download_event_poster (poster_id : String)
    (store : List (ObjectId × MediaDoc)) :
    Except HTTPException StreamingResponse :=
  match parse_object_id poster_id with
  | Except.error e => Except.error e
  | Except.ok obj_id =>
    match find_one_media store obj_id "event_poster" with
    | none => Except.error ⟨404, "Poster not found"⟩
    | some poster =>
        Except.ok ⟨poster.2.content, poster.2.content_type,
                   "attachment; filename=" ++ poster.2.filename⟩

/-- Handler `download_promo_video`: same shape with category
`promo_video`. -/
def download_promo_video (video_id : String)
    (store : List (ObjectId × MediaDoc)) :
    Except HTTPException StreamingResponse :=
  match parse_object_id video_id with
  | Except.error e => Except.error e
  | Except.ok obj_id =>
    match find_one_media store obj_id "promo_video" with
    | none => Except.error ⟨404, "Video not found"⟩
    | some video =>
        Except.ok ⟨video.2.content, video.2.content_type,
                   "attachment; filename=" ++ video.2.filename⟩

/-! ## Sanitizer lemmas -/

/-- Every error `clean_input` raises carries HTTP status 400. -/
theorem clean_input_error_status (data : List (String × Value))
    (e : HTTPException) (h : clean_input data = Except.error e) :
    e.status_code = 400 := by
  induction data with
  | nil => simp [clean_input] at h
  | cons kv rest ih =>
    obtain ⟨k, v⟩ := kv
    cases v with
    | vDoc kvs =>
        simp [clean_input] at h
        simp [← h]
    | vStr s =>
        by_cases hd : strHasDollar s
        · simp [clean_input, hd] at h
          simp [← h]
        · simp only [clean_input, hd, if_neg, Bool.false_eq_true,
            ite_false] at h
          exact ih h
    | vInt n => exact ih (by simpa [clean_input] using h)
    | vOid o => exact ih (by simpa [clean_input] using h)
    | vNull => exact ih (by simpa [clean_input] using h)
    | vBytes bs => exact ih (by simpa [clean_input] using h)
    | vTime t => exact ih (by simpa [clean_input] using h)
    | vList l => exact ih (by simpa [clean_input] using h)

/-- Acceptance: `clean_input` accepts any mapping whose top-level values are neither
dicts nor strings containing the reserved marker. -/
theorem clean_input_ok_of_benign (data : List (String × Value))
    (h : ∀ kv ∈ data, isDictVal kv.2 = false ∧ hasDollarVal kv.2 = false) :
    clean_input data = Except.ok () := by
  induction data with
  | nil => rfl
  | cons kv rest ih =>
    obtain ⟨k, v⟩ := kv
    have hhead := h (k, v) (List.mem_cons_self _ _)
    have htail := ih fun kv hkv => h kv (List.mem_cons_of_mem _ hkv)
    cases v with
    | vDoc kvs => simp [isDictVal] at hhead
    | vStr s =>
        have hd : strHasDollar s = false := by
          simpa [hasDollarVal] using hhead.2
        simp [clean_input, hd, htail]
    | vInt n => simpa [clean_input] using htail
    | vOid o => simpa [clean_input] using htail
    | vNull => simpa [clean_input] using htail
    | vBytes bs => simpa [clean_input] using htail
    | vTime t => simpa [clean_input] using htail
    | vList l => simpa [clean_input] using htail

/-- Rejection: `clean_input` raises a 400 error whenever some top-level value is a
dict or a string containing the reserved marker. -/
theorem clean_input_error_of_bad (data : List (String × Value))
    (h : ∃ kv ∈ data, isDictVal kv.2 = true ∨ hasDollarVal kv.2 = true) :
    ∃ e, clean_input data = Except.error e ∧ e.status_code = 400 := by
  induction data with
  | nil => simp at h
  | cons kv rest ih =>
    obtain ⟨k, v⟩ := kv
    cases v with
    | vDoc kvs => exact ⟨⟨400, "Nested dictionaries are not allowed"⟩, rfl, rfl⟩
    | vStr s =>
        by_cases hd : strHasDollar s
        · exact ⟨⟨400, "Invalid characters in input"⟩, by simp [clean_input, hd], rfl⟩
        · have : ∃ kv ∈ rest, isDictVal kv.2 = true ∨ hasDollarVal kv.2 = true := by
            rcases h with ⟨kv, hmem, hbad⟩
            rcases List.mem_cons.1 hmem with rfl | hmem
            · simp [isDictVal, hasDollarVal, hd] at hbad
            · exact ⟨kv, hmem, hbad⟩
          obtain ⟨e, he, hs⟩ := ih this
          exact ⟨e, by simpa [clean_input, hd] using he, hs⟩
    | vInt n =>
        have : ∃ kv ∈ rest, isDictVal kv.2 = true ∨ hasDollarVal kv.2 = true := by
          rcases h with ⟨kv, hmem, hbad⟩
          rcases List.mem_cons.1 hmem with rfl | hmem
          · simp [isDictVal, hasDollarVal] at hbad
          · exact ⟨kv, hmem, hbad⟩
        obtain ⟨e, he, hs⟩ := ih this
        exact ⟨e, by simpa [clean_input] using he, hs⟩
    | vOid o =>
        have : ∃ kv ∈ rest, isDictVal kv.2 = true ∨ hasDollarVal kv.2 = true := by
          rcases h with ⟨kv, hmem, hbad⟩
          rcases List.mem_cons.1 hmem with rfl | hmem
          · simp [isDictVal, hasDollarVal] at hbad
          · exact ⟨kv, hmem, hbad⟩
        obtain ⟨e, he, hs⟩ := ih this
        exact ⟨e, by simpa [clean_input] using he, hs⟩
    | vNull =>
        have : ∃ kv ∈ rest, isDictVal kv.2 = true ∨ hasDollarVal kv.2 = true := by
          rcases h with ⟨kv, hmem, hbad⟩
          rcases List.mem_cons.1 hmem with rfl | hmem
          · simp [isDictVal, hasDollarVal] at hbad
          · exact ⟨kv, hmem, hbad⟩
        obtain ⟨e, he, hs⟩ := ih this
        exact ⟨e, by simpa [clean_input] using he, hs⟩
    | vBytes bs =>
        have : ∃ kv ∈ rest, isDictVal kv.2 = true ∨ hasDollarVal kv.2 = true := by
          rcases h with ⟨kv, hmem, hbad⟩
          rcases List.mem_cons.1 hmem with rfl | hmem
          · simp [isDictVal, hasDollarVal] at hbad
          · exact ⟨kv, hmem, hbad⟩
        obtain ⟨e, he, hs⟩ := ih this
        exact ⟨e, by simpa [clean_input] using he, hs⟩
    | vTime t =>
        have : ∃ kv ∈ rest, isDictVal kv.2 = true ∨ hasDollarVal kv.2 = true := by
          rcases h with ⟨kv, hmem, hbad⟩
          rcases List.mem_cons.1 hmem with rfl | hmem
          · simp [isDictVal, hasDollarVal] at hbad
          · exact ⟨kv, hmem, hbad⟩
        obtain ⟨e, he, hs⟩ := ih this
        exact ⟨e, by simpa [clean_input] using he, hs⟩
    | vList l =>
        have : ∃ kv ∈ rest, isDictVal kv.2 = true ∨ hasDollarVal kv.2 = true := by
          rcases h with ⟨kv, hmem, hbad⟩
          rcases List.mem_cons.1 hmem with rfl | hmem
          · simp [isDictVal, hasDollarVal] at hbad
          · exact ⟨kv, hmem, hbad⟩
        obtain ⟨e, he, hs⟩ := ih this
        exact ⟨e, by simpa [clean_input] using he, hs⟩

/-! ## Codec lemmas -/

/-- On every digit below 16, `Nat.digitChar` produces a hexadecimal
character whose value reads back as that digit. -/
theorem digitChar_hex_spec :
    ∀ n : Fin 16, hexVal (Nat.digitChar n.val) = n.val ∧
      isHexChar (Nat.digitChar n.val) = true := by decide

/-- Hex rendering followed by hex parsing is the identity on byte
sequences. -/
theorem hexPairsToBytes_bytesToHex (bs : List Nat)
    (h : ∀ b ∈ bs, b < 256) : hexPairsToBytes (bytesToHex bs) = bs := by
  induction bs with
  | nil => rfl
  | cons b bs ih =>
    have hb : b < 256 := h b (List.mem_cons_self _ _)
    have hdiv : b / 16 < 16 := by omega
    have hmod : b % 16 < 16 := Nat.mod_lt _ (by norm_num)
    have h1 : hexVal (Nat.digitChar (b / 16)) = b / 16 :=
      (digitChar_hex_spec ⟨b / 16, hdiv⟩).1
    have h2 : hexVal (Nat.digitChar (b % 16)) = b % 16 :=
      (digitChar_hex_spec ⟨b % 16, hmod⟩).1
    have htail := ih fun x hx => h x (List.mem_cons_of_mem _ hx)
    simp [bytesToHex, byteToHex, hexPairsToBytes, htail, h1, h2]
    omega

/-- Hex rendering doubles the length. -/
theorem bytesToHex_length (bs : List Nat) :
    (bytesToHex bs).length = 2 * bs.length := by
  induction bs with
  | nil => rfl
  | cons b bs ih =>
    simp [bytesToHex, byteToHex, ih]
    omega

/-- Hex rendering of bytes produces only hexadecimal characters. -/
theorem bytesToHex_all_hex (bs : List Nat) (h : ∀ b ∈ bs, b < 256) :
    (bytesToHex bs).all isHexChar = true := by
  induction bs with
  | nil => rfl
  | cons b bs ih =>
    have hb : b < 256 := h b (List.mem_cons_self _ _)
    have hdiv : b / 16 < 16 := by omega
    have hmod : b % 16 < 16 := Nat.mod_lt _ (by norm_num)
    have h1 : isHexChar (Nat.digitChar (b / 16)) = true :=
      (digitChar_hex_spec ⟨b / 16, hdiv⟩).2
    have h2 : isHexChar (Nat.digitChar (b % 16)) = true :=
      (digitChar_hex_spec ⟨b % 16, hmod⟩).2
    have htail := ih fun x hx => h x (List.mem_cons_of_mem _ hx)
    simp [bytesToHex, byteToHex, h1, h2, htail]

/-- The encoded form of a store-generated identifier passes
`ObjectId.is_valid`. -/
theorem oid_to_string_valid (x : ObjectId) (hx : x.wf) :
    ObjectId_is_valid (oid_to_string x) = true := by
  have hlen : (bytesToHex x.bytes).length = 24 := by
    rw [bytesToHex_length, hx.1]
  simp [ObjectId_is_valid, oid_to_string, hlen,
    bytesToHex_all_hex x.bytes hx.2]

/-! ## Store lemmas -/

/-- Behavior of `update_one` on a store with no matching id: nothing matched, store
unchanged. -/
theorem update_one_no_match (store : List StoredDoc) (oid : ObjectId)
    (upd : List (String × Value)) (h : ∀ d ∈ store, d.1 ≠ oid) :
    update_one store oid upd = (0, store) := by
  induction store with
  | nil => rfl
  | cons d rest ih =>
    obtain ⟨i, fs⟩ := d
    have hi : i ≠ oid := h (i, fs) (List.mem_cons_self _ _)
    have htail := ih fun d hd => h d (List.mem_cons_of_mem _ hd)
    simp [update_one, hi, htail]

/-- Behavior of `update_one` on a store holding the id: exactly one match. -/
theorem update_one_matched (store : List StoredDoc) (oid : ObjectId)
    (upd : List (String × Value)) (h : ∃ d ∈ store, d.1 = oid) :
    (update_one store oid upd).1 = 1 := by
  induction store with
  | nil => simp at h
  | cons d rest ih =>
    obtain ⟨i, fs⟩ := d
    by_cases hi : i = oid
    · simp [update_one, hi]
    · have : ∃ d ∈ rest, d.1 = oid := by
        rcases h with ⟨d, hmem, hd⟩
        rcases List.mem_cons.1 hmem with rfl | hmem
        · exact absurd hd hi
        · exact ⟨d, hmem, hd⟩
      simp [update_one, hi, ih this]

/-- Behavior of `delete_one` on a store with no matching id: nothing deleted, store
unchanged. -/
theorem delete_one_no_match (store : List StoredDoc) (oid : ObjectId)
    (h : ∀ d ∈ store, d.1 ≠ oid) :
    delete_one store oid = (0, store) := by
  induction store with
  | nil => rfl
  | cons d rest ih =>
    obtain ⟨i, fs⟩ := d
    have hi : i ≠ oid := h (i, fs) (List.mem_cons_self _ _)
    have htail := ih fun d hd => h d (List.mem_cons_of_mem _ hd)
    simp [delete_one, hi, htail]

/-- Behavior of `delete_one` on a store holding the id: exactly one deletion. -/
theorem delete_one_matched (store : List StoredDoc) (oid : ObjectId)
    (h : ∃ d ∈ store, d.1 = oid) :
    (delete_one store oid).1 = 1 := by
  induction store with
  | nil => simp at h
  | cons d rest ih =>
    obtain ⟨i, fs⟩ := d
    by_cases hi : i = oid
    · simp [delete_one, hi]
    · have : ∃ d ∈ rest, d.1 = oid := by
        rcases h with ⟨d, hmem, hd⟩
        rcases List.mem_cons.1 hmem with rfl | hmem
        · exact absurd hd hi
        · exact ⟨d, hmem, hd⟩
      simp [delete_one, hi, ih this]

/-- Behavior of `find_one_media`: returns nothing when no record matches both the id
and the category. -/
theorem find_one_media_none (store : List (ObjectId × MediaDoc))
    (oid : ObjectId) (mt : String)
    (h : ∀ r ∈ store, ¬(r.1 = oid ∧ r.2.media_type = mt)) :
    find_one_media store oid mt = none := by
  induction store with
  | nil => rfl
  | cons r rest ih =>
    have hr := h r (List.mem_cons_self _ _)
    have htail := ih fun q hq => h q (List.mem_cons_of_mem _ hq)
    simp [find_one_media, hr, htail]

/-- With store-unique ids, `find_one_media` returns exactly the stored
record carrying the requested id and category. -/
theorem find_one_media_mem (store : List (ObjectId × MediaDoc))
    (oid : ObjectId) (mt : String) (r : ObjectId × MediaDoc)
    (huniq : store.Pairwise (fun a b => a.1 ≠ b.1))
    (hmem : r ∈ store) (hid : r.1 = oid) (hmt : r.2.media_type = mt) :
    find_one_media store oid mt = some r := by
  induction store with
  | nil => simp at hmem
  | cons q rest ih =>
    rcases List.mem_cons.1 hmem with rfl | hmem
    · simp [find_one_media, hid, hmt]
    · have hq : q.1 ≠ oid := by
        have := (List.pairwise_cons.1 huniq).1 r hmem
        rw [hid] at this
        exact this
      have htail := ih (List.pairwise_cons.1 huniq).2 hmem
      simp [find_one_media, hq, htail]

/-! ## Entity mapping lemmas -/

/-- Every field of `event.dict()` is in `EVENT_ALLOWED`, so the
allowlist filter keeps all of it. -/
theorem event_dict_filter_id (e : Event) :
    (event_dict e).filter (fun kv => EVENT_ALLOWED.contains kv.1) =
      event_dict e := rfl

/-- No value of `event.dict()` is a nested dict. -/
theorem event_dict_no_dict_values (e : Event) :
    ∀ kv ∈ event_dict e, isDictVal kv.2 = false := by
  intro kv hkv
  simp only [event_dict, List.mem_cons, List.not_mem_nil, or_false] at hkv
  rcases hkv with rfl | rfl | rfl | rfl | rfl <;> rfl

/-! ## Claim theorems -/

/-- Claim C1: for every flat mapping passed to `clean_input`, if any
value of the mapping is itself a mapping (a nested dictionary), the
sanitizer fails with an HTTP 400 error. -/
theorem clean_input_rejects_nested_dict (data : List (String × Value))
    (h : ∃ kv ∈ data, isDictVal kv.2 = true) :
    ∃ e, clean_input data = Except.error e ∧ e.status_code = 400 := by
  obtain ⟨kv, hmem, hd⟩ := h
  exact clean_input_error_of_bad data ⟨kv, hmem, Or.inl hd⟩

/-- Witness for C1: a mapping with a nested dictionary value is
rejected with status 400. -/
theorem clean_input_rejects_nested_dict_witness :
    ∃ e, clean_input
        [("ok", Value.vStr "fine"),
         ("bad", Value.vDoc [("x", Value.vStr "1")])] = Except.error e ∧
      e.status_code = 400 :=
  clean_input_rejects_nested_dict
    [("ok", Value.vStr "fine"), ("bad", Value.vDoc [("x", Value.vStr "1")])]
    (by decide)

/-- Claim C2: for every mapping passed to `clean_input`, if any string
value contains the reserved operator marker character anywhere, the
sanitizer fails with an HTTP 400 error. -/
theorem clean_input_rejects_reserved_marker (data : List (String × Value))
    (h : ∃ kv ∈ data, hasDollarVal kv.2 = true) :
    ∃ e, clean_input data = Except.error e ∧ e.status_code = 400 := by
  obtain ⟨kv, hmem, hd⟩ := h
  exact clean_input_error_of_bad data ⟨kv, hmem, Or.inr hd⟩

/-- Witness for C2: a mapping with the marker mid-string is rejected
with status 400. -/
theorem clean_input_rejects_reserved_marker_witness :
    ∃ e, clean_input [("name", Value.vStr "ab$cd")] = Except.error e ∧
      e.status_code = 400 :=
  clean_input_rejects_reserved_marker
    [("name", Value.vStr "ab$cd")] (by decide)

/-- Claim C9: `clean_input` inspects only top-level values and never
descends into lists: a mapping whose top-level values are neither dicts
nor marker-bearing strings is accepted, whatever its lists contain. -/
theorem clean_input_ignores_list_values (data : List (String × Value))
    (h : ∀ kv ∈ data, isDictVal kv.2 = false ∧ hasDollarVal kv.2 = false) :
    clean_input data = Except.ok () :=
  clean_input_ok_of_benign data h

/-- Witness for C9: a list value hiding both a nested dict and a
marker-bearing string still passes the sanitizer. -/
theorem clean_input_ignores_list_values_witness :
    clean_input
      [("items", Value.vList
          [Value.vDoc [("k", Value.vStr "v")], Value.vStr "$ne"]),
       ("note", Value.vStr "plain")] = Except.ok () :=
  clean_input_ignores_list_values
    [("items", Value.vList
        [Value.vDoc [("k", Value.vStr "v")], Value.vStr "$ne"]),
     ("note", Value.vStr "plain")]
    (by decide)

/-- Claim C3: `safe_update_fields` returns no key outside the allowed
set, preserves every allowed entry of the input, and fails exactly when
`clean_input` fails on the filtered mapping it sanitizes before
returning. -/
theorem safe_update_fields_spec (data : List (String × Value))
    (allowed : List String) :
    (∀ res, safe_update_fields data allowed = Except.ok res →
      (∀ kv ∈ res, allowed.contains kv.1 = true) ∧
      ∀ kv ∈ data, allowed.contains kv.1 = true → kv ∈ res) ∧
    (∀ e, safe_update_fields data allowed = Except.error e ↔
      clean_input (data.filter fun kv => allowed.contains kv.1) =
        Except.error e) := by
  have heq : safe_update_fields data allowed =
      match clean_input (data.filter fun kv => allowed.contains kv.1) with
      | Except.ok _ =>
          Except.ok (data.filter fun kv => allowed.contains kv.1)
      | Except.error e => Except.error e := rfl
  cases hcl : clean_input (data.filter fun kv => allowed.contains kv.1) with
  | ok u =>
    cases u
    have hval : safe_update_fields data allowed =
        Except.ok (data.filter fun kv => allowed.contains kv.1) := by
      rw [heq, hcl]
    constructor
    · intro res hres
      rw [hval] at hres
      have hres' : res = data.filter fun kv => allowed.contains kv.1 :=
        (Except.ok.inj hres).symm
      subst hres'
      constructor
      · intro kv hkv
        exact (List.mem_filter.1 hkv).2
      · intro kv hkv hal
        exact List.mem_filter.2 ⟨hkv, hal⟩
    · intro e
      rw [hval]
      constructor <;> intro hfalse <;> cases hfalse
  | error e0 =>
    have hval : safe_update_fields data allowed = Except.error e0 := by
      rw [heq, hcl]
    constructor
    · intro res hres
      rw [hval] at hres
      cases hres
    · intro e
      rw [hval]
      constructor <;> intro h <;> rw [Except.error.inj h]

/-- Witness for C3, at a mapping with one disallowed key. -/
theorem safe_update_fields_spec_witness :
    (∀ res, safe_update_fields
        [("name", Value.vStr "a"), ("evil", Value.vStr "b")] ["name"] =
          Except.ok res →
      (∀ kv ∈ res, (["name"] : List String).contains kv.1 = true) ∧
      ∀ kv ∈ [("name", Value.vStr "a"), ("evil", Value.vStr "b")],
        (["name"] : List String).contains kv.1 = true → kv ∈ res) ∧
    (∀ e, safe_update_fields
        [("name", Value.vStr "a"), ("evil", Value.vStr "b")] ["name"] =
          Except.error e ↔
      clean_input
        ([("name", Value.vStr "a"), ("evil", Value.vStr "b")].filter
          fun kv => (["name"] : List String).contains kv.1) =
        Except.error e) :=
  safe_update_fields_spec
    [("name", Value.vStr "a"), ("evil", Value.vStr "b")] ["name"]

/-- Claim C4: decoding the encoded string form of a store-generated
identifier returns the identifier (`decode(encode(x)) == x`), and
`parse_object_id` fails with a 400 error carrying the offending string
on any string outside the identifier syntax. -/
theorem parse_object_id_roundtrip (x : ObjectId) (s : String) (hx : x.wf)
    (hs : ObjectId_is_valid s = false) :
    parse_object_id (oid_to_string x) = Except.ok x ∧
    parse_object_id s = Except.error ⟨400, "Invalid ID: " ++ s⟩ := by
  constructor
  · have hv := oid_to_string_valid x hx
    have hrt : hexPairsToBytes (bytesToHex x.bytes) = x.bytes :=
      hexPairsToBytes_bytesToHex x.bytes hx.2
    cases x with
    | mk bytes => simp_all [parse_object_id, oid_to_string]
  · simp [parse_object_id, hs]

/-- Witness for C4, at a concrete 12-byte identifier and a malformed
string. -/
theorem parse_object_id_roundtrip_witness :
    parse_object_id (oid_to_string ⟨List.replicate 12 171⟩) =
      Except.ok ⟨List.replicate 12 171⟩ ∧
    parse_object_id "zzz" =
      Except.error ⟨400, "Invalid ID: " ++ "zzz"⟩ :=
  parse_object_id_roundtrip ⟨List.replicate 12 171⟩ "zzz"
    ⟨rfl, by decide⟩ (by decide)

/-- Claim C10: each entity's update allowlist is exactly the field-name
set of its typed request model, and the allowlist filtering step is the
identity on every typed request body. -/
theorem allowlists_match_model_fields (e : Event) (a : Attendee)
    (v : Venue) (b : Booking) :
    ((event_dict e).map Prod.fst = EVENT_ALLOWED ∧
      (event_dict e).filter (fun kv => EVENT_ALLOWED.contains kv.1) =
        event_dict e) ∧
    ((attendee_dict a).map Prod.fst = ATTENDEE_ALLOWED ∧
      (attendee_dict a).filter (fun kv => ATTENDEE_ALLOWED.contains kv.1) =
        attendee_dict a) ∧
    ((venue_dict v).map Prod.fst = VENUE_ALLOWED ∧
      (venue_dict v).filter (fun kv => VENUE_ALLOWED.contains kv.1) =
        venue_dict v) ∧
    ((booking_dict b).map Prod.fst = BOOKING_ALLOWED ∧
      (booking_dict b).filter (fun kv => BOOKING_ALLOWED.contains kv.1) =
        booking_dict b) :=
  ⟨⟨rfl, rfl⟩, ⟨rfl, rfl⟩, ⟨rfl, rfl⟩, ⟨rfl, rfl⟩⟩

/-- Claim C5 (code bug): `string_ids` leaves an internal identifier
that sits directly inside a list value unchanged — the output still
holds one identifier-typed value and zero string replacements — while
an identifier sitting as a dict value is converted. -/
theorem string_ids_list_element_oid_unchanged :
    string_ids (Value.vDoc
        [("a", Value.vList [Value.vOid ⟨List.replicate 12 171⟩])]) =
      Value.vDoc
        [("a", Value.vList [Value.vOid ⟨List.replicate 12 171⟩])] ∧
    countOids (string_ids (Value.vDoc
        [("a", Value.vList [Value.vOid ⟨List.replicate 12 171⟩])])) = 1 ∧
    string_ids (Value.vDoc [("b", Value.vOid ⟨List.replicate 12 171⟩)]) =
      Value.vDoc [("b", Value.vStr "abababababababababababab")] :=
  ⟨rfl, rfl, rfl⟩

/-- Claim C6: an update on a well-formed identifier whose body holds a
string value with the reserved marker fails with a 400 error, and the
store after the request is exactly the store before it (the sanitizer
rejection precedes any store mutation). -/
theorem update_event_reserved_marker_atomic (event_id : String)
    (event : Event) (store : List StoredDoc)
    (hid : ObjectId_is_valid event_id = true)
    (hd : ∃ kv ∈ event_dict event, hasDollarVal kv.2 = true) :
    (∃ e, (update_event event_id event store).1 = Except.error e ∧
      e.status_code = 400) ∧
    (update_event event_id event store).2 = store := by
  obtain ⟨e, he, hs⟩ := clean_input_error_of_bad (event_dict event)
    (by obtain ⟨kv, hmem, hkv⟩ := hd; exact ⟨kv, hmem, Or.inr hkv⟩)
  have hsf : safe_update_fields (event_dict event) EVENT_ALLOWED =
      Except.error e := by
    have heq : safe_update_fields (event_dict event) EVENT_ALLOWED =
        match clean_input ((event_dict event).filter
            fun kv => EVENT_ALLOWED.contains kv.1) with
        | Except.ok _ => Except.ok ((event_dict event).filter
            fun kv => EVENT_ALLOWED.contains kv.1)
        | Except.error err => Except.error err := rfl
    rw [heq, event_dict_filter_id, he]
  have hrun : update_event event_id event store = (Except.error e, store) := by
    simp [update_event, parse_object_id, hid, hsf]
  exact ⟨⟨e, by rw [hrun], hs⟩, by rw [hrun]⟩

/-- Witness for C6: updating with body name `$ne` on a well-formed id
fails with 400 and leaves the store untouched. -/
theorem update_event_reserved_marker_atomic_witness :
    (∃ e, (update_event "abababababababababababab"
        ⟨"$ne", "d", "2024-01-01", "v1", 10⟩ []).1 = Except.error e ∧
      e.status_code = 400) ∧
    (update_event "abababababababababababab"
        ⟨"$ne", "d", "2024-01-01", "v1", 10⟩ []).2 = [] :=
  update_event_reserved_marker_atomic "abababababababababababab"
    ⟨"$ne", "d", "2024-01-01", "v1", 10⟩ [] (by decide) (by decide)

/-- Claim C7: on a well-formed identifier matching no stored record,
update and delete fail with a 404 Not Found error; when a record
matches, each returns its confirmation message. -/
theorem update_delete_absent_id_not_found (event_id : String)
    (oid : ObjectId) (event : Event) (store : List StoredDoc)
    (hid : parse_object_id event_id = Except.ok oid)
    (hcl : ∀ kv ∈ event_dict event, hasDollarVal kv.2 = false) :
    ((∀ d ∈ store, d.1 ≠ oid) →
      (update_event event_id event store).1 =
        Except.error ⟨404, "Event not found"⟩ ∧
      (delete_event event_id store).1 =
        Except.error ⟨404, "Event not found"⟩) ∧
    ((∃ d ∈ store, d.1 = oid) →
      (update_event event_id event store).1 = Except.ok "Event updated" ∧
      (delete_event event_id store).1 = Except.ok "Event deleted") := by
  have hok : safe_update_fields (event_dict event) EVENT_ALLOWED =
      Except.ok (event_dict event) := by
    have heq : safe_update_fields (event_dict event) EVENT_ALLOWED =
        match clean_input ((event_dict event).filter
            fun kv => EVENT_ALLOWED.contains kv.1) with
        | Except.ok _ => Except.ok ((event_dict event).filter
            fun kv => EVENT_ALLOWED.contains kv.1)
        | Except.error err => Except.error err := rfl
    rw [heq, event_dict_filter_id, clean_input_ok_of_benign
      (event_dict event)
      (fun kv hkv => ⟨event_dict_no_dict_values event kv hkv, hcl kv hkv⟩)]
  constructor
  · intro hno
    have h0 := update_one_no_match store oid (event_dict event) hno
    have h0d := delete_one_no_match store oid hno
    constructor
    · simp [update_event, hid, hok, h0]
    · simp [delete_event, hid, h0d]
  · intro hyes
    have h1 := update_one_matched store oid (event_dict event) hyes
    have h1d := delete_one_matched store oid hyes
    constructor
    · simp [update_event, hid, hok, h1]
    · simp [delete_event, hid, h1d]

/-- Witness for C7: a well-formed identifier against an empty store
yields 404 from both update and delete. -/
theorem update_delete_absent_id_not_found_witness :
    (update_event "abababababababababababab"
        ⟨"Gala", "d", "2024-01-01", "v1", 10⟩ []).1 =
      Except.error ⟨404, "Event not found"⟩ ∧
    (delete_event "abababababababababababab" []).1 =
      Except.error ⟨404, "Event not found"⟩ :=
  (update_delete_absent_id_not_found "abababababababababababab"
    ⟨List.replicate 12 171⟩ ⟨"Gala", "d", "2024-01-01", "v1", 10⟩ []
    rfl (by decide)).1 (by simp)

/-- Claim C8: media download on a well-formed identifier fails with 404
when no stored record carries both that identifier and the expected
media category; when the record exists with the right category, the
stored payload is returned with its content-type and an attachment
Content-Disposition carrying the original filename. -/
theorem download_media_category_filter (pid : String) (oid : ObjectId)
    (store : List (ObjectId × MediaDoc)) (r : ObjectId × MediaDoc)
    (hid : parse_object_id pid = Except.ok oid)
    (huniq : store.Pairwise (fun x y => x.1 ≠ y.1)) :
    ((∀ q ∈ store, ¬(q.1 = oid ∧ q.2.media_type = "event_poster")) →
      download_event_poster pid store =
        Except.error ⟨404, "Poster not found"⟩) ∧
    (r ∈ store → r.1 = oid → r.2.media_type = "event_poster" →
      download_event_poster pid store =
        Except.ok ⟨r.2.content, r.2.content_type,
          "attachment; filename=" ++ r.2.filename⟩) ∧
    ((∀ q ∈ store, ¬(q.1 = oid ∧ q.2.media_type = "promo_video")) →
      download_promo_video pid store =
        Except.error ⟨404, "Video not found"⟩) ∧
    (r ∈ store → r.1 = oid → r.2.media_type = "promo_video" →
      download_promo_video pid store =
        Except.ok ⟨r.2.content, r.2.content_type,
          "attachment; filename=" ++ r.2.filename⟩) := by
  refine ⟨fun h => ?_, fun hmem hrid hrmt => ?_,
          fun h => ?_, fun hmem hrid hrmt => ?_⟩
  · simp [download_event_poster, hid, find_one_media_none store oid _ h]
  · simp [download_event_poster, hid,
      find_one_media_mem store oid _ r huniq hmem hrid hrmt]
  · simp [download_promo_video, hid, find_one_media_none store oid _ h]
  · simp [download_promo_video, hid,
      find_one_media_mem store oid _ r huniq hmem hrid hrmt]

/-- Witness for C8: with one stored promo video, requesting it as an
event poster yields 404, while the promo-video download returns the
payload, content-type and attachment filename. -/
theorem download_media_category_filter_witness :
    download_event_poster "abababababababababababab"
      [(⟨List.replicate 12 171⟩,
        ⟨"ev1", "promo.mp4", "video/mp4", [1, 2, 3], "promo_video", 0⟩)] =
      Except.error ⟨404, "Poster not found"⟩ ∧
    download_promo_video "abababababababababababab"
      [(⟨List.replicate 12 171⟩,
        ⟨"ev1", "promo.mp4", "video/mp4", [1, 2, 3], "promo_video", 0⟩)] =
      Except.ok ⟨[1, 2, 3], "video/mp4", "attachment; filename=promo.mp4"⟩ :=
  ⟨(download_media_category_filter "abababababababababababab"
      ⟨List.replicate 12 171⟩
      [(⟨List.replicate 12 171⟩,
        ⟨"ev1", "promo.mp4", "video/mp4", [1, 2, 3], "promo_video", 0⟩)]
      (⟨List.replicate 12 171⟩,
        ⟨"ev1", "promo.mp4", "video/mp4", [1, 2, 3], "promo_video", 0⟩)
      rfl (by simp)).1 (by decide),
   (download_media_category_filter "abababababababababababab"
      ⟨List.replicate 12 171⟩
      [(⟨List.replicate 12 171⟩,
        ⟨"ev1", "promo.mp4", "video/mp4", [1, 2, 3], "promo_video", 0⟩)]
      (⟨List.replicate 12 171⟩,
        ⟨"ev1", "promo.mp4", "video/mp4", [1, 2, 3], "promo_video", 0⟩)
      rfl (by simp)).2.2.2 (List.mem_cons_self _ _) rfl rfl⟩

end DbHome
